import Mathlib

/-!
Shallow embedding of the Apple A7IOP mailbox and the RTBuddy session layer
from hw/misc/apple-silicon/a7iop/{mailbox/core.c, core.c, rtbuddy.c} and
their headers.  Machine integers are modelled as Nat; the C `size_t count`
is incremented/decremented only while it tracks the (memory-bounded) queue
length, so 2^64 wraparound is unreachable and plain Nat arithmetic is
faithful.  Interrupt lines are level outputs recomputed from state, so they
are modelled as a pure function of the state.
-/

/-- Message carried by an A7IOP mailbox, after AppleA7IOPMessage in
include/hw/misc/apple-silicon/a7iop/mailbox/core.h: 64-bit payload `msg`,
32-bit `endpoint`, 32-bit `flags`. -/
structure AppleA7IOPMessage where
  msg : Nat
  endpoint : Nat
  flags : Nat
  deriving DecidableEq, Repr

/-- State of one AppleA7IOPMailbox instance (the fields of struct
AppleA7IOPMailbox that the modelled operations read or write). -/
structure AppleA7IOPMailbox where
  inbox : List AppleA7IOPMessage
  count : Nat
  iop_dir_en : Bool
  ap_dir_en : Bool
  underflow : Bool
  int_mask : Nat
  deriving DecidableEq, Repr

/-- MAX_MESSAGE_COUNT from mailbox/core.c. -/
def MAX_MESSAGE_COUNT : Nat := 15

/-- CTRL_FULL macro: bit 16. -/
def CTRL_FULL (v : Nat) : Nat := (v <<< 16) &&& (1 <<< 16)

/-- CTRL_EMPTY macro: bit 17. -/
def CTRL_EMPTY (v : Nat) : Nat := (v <<< 17) &&& (1 <<< 17)

/-- CTRL_UNDERFLOW macro: bit 19. -/
def CTRL_UNDERFLOW (v : Nat) : Nat := (v <<< 19) &&& (1 <<< 19)

/-- CTRL_COUNT macro: bits 20..23 (mask MAX_MESSAGE_COUNT << 20). -/
def CTRL_COUNT (v : Nat) : Nat := (v <<< 20) &&& (MAX_MESSAGE_COUNT <<< 20)

/-- IOP_EMPTY interrupt-mask bit. -/
def IOP_EMPTY : Nat := 1

/-- IOP_NONEMPTY interrupt-mask bit. -/
def IOP_NONEMPTY : Nat := 1 <<< 4

/-- AP_EMPTY interrupt-mask bit. -/
def AP_EMPTY : Nat := 1 <<< 8

/-- AP_NONEMPTY interrupt-mask bit. -/
def AP_NONEMPTY : Nat := 1 <<< 12

/-- iop_empty_is_unmasked from mailbox/core.c. -/
def iop_empty_is_unmasked (int_mask : Nat) : Bool := int_mask &&& IOP_EMPTY == 0

/-- iop_nonempty_is_unmasked from mailbox/core.c. -/
def iop_nonempty_is_unmasked (int_mask : Nat) : Bool :=
  int_mask &&& IOP_NONEMPTY == 0

/-- ap_empty_is_unmasked from mailbox/core.c. -/
def ap_empty_is_unmasked (int_mask : Nat) : Bool := int_mask &&& AP_EMPTY == 0

/-- ap_nonempty_is_unmasked from mailbox/core.c. -/
def ap_nonempty_is_unmasked (int_mask : Nat) : Bool :=
  int_mask &&& AP_NONEMPTY == 0

/-- Levels of the four interrupt lines driven by
apple_a7iop_mailbox_update_irq. -/
structure AppleA7IOPIrqLines where
  iop_nonempty : Bool
  iop_empty : Bool
  ap_nonempty : Bool
  ap_empty : Bool
  deriving DecidableEq, Repr

/-- apple_a7iop_mailbox_update_irq from mailbox/core.c, as a pure function:
the instance whose lines are computed carries `int_mask`, and its
`iop_mailbox` / `ap_mailbox` pointers refer to the two paired instances
`iopMb` and `apMb` (the pairing established in core.c apple_a7iop_init). -/
def apple_a7iop_mailbox_update_irq (int_mask : Nat)
    (iopMb apMb : AppleA7IOPMailbox) : AppleA7IOPIrqLines :=
  let iop_mb_empty := iopMb.inbox.isEmpty
  let ap_mb_empty := apMb.inbox.isEmpty
  { iop_nonempty :=
      (iop_nonempty_is_unmasked int_mask && !iop_mb_empty) || iopMb.underflow,
    iop_empty := iop_empty_is_unmasked int_mask && iop_mb_empty,
    ap_nonempty :=
      (ap_nonempty_is_unmasked int_mask && !ap_mb_empty) || apMb.underflow,
    ap_empty := ap_empty_is_unmasked int_mask && ap_mb_empty }

/-- apple_a7iop_mailbox_is_empty from mailbox/core.c: true when underflowed
or when the inbox holds no message. -/
def apple_a7iop_mailbox_is_empty (s : AppleA7IOPMailbox) : Bool :=
  s.underflow || s.inbox.isEmpty

/-- apple_a7iop_mailbox_send from mailbox/core.c: append the message to the
inbox tail and increment count (interrupt recomputation is the pure
function apple_a7iop_mailbox_update_irq; the bottom-half scheduling has no
effect on this state). -/
def apple_a7iop_mailbox_send (s : AppleA7IOPMailbox)
    (msg : AppleA7IOPMessage) : AppleA7IOPMailbox :=
  { s with inbox := s.inbox ++ [msg], count := s.count + 1 }

/-- apple_a7iop_mailbox_recv from mailbox/core.c: if underflowed, return
nothing with no state change; if the inbox is empty, set underflow and
return nothing; otherwise remove the head, OR CTRL_COUNT of the
pre-removal count into its flags, decrement count and return it. -/
def apple_a7iop_mailbox_recv (s : AppleA7IOPMailbox) :
    AppleA7IOPMailbox × Option AppleA7IOPMessage :=
  if s.underflow then (s, none)
  else
    match s.inbox with
    | [] => ({ s with underflow := true }, none)
    | msg :: rest =>
        ({ s with inbox := rest, count := s.count - 1 },
         some { msg with flags := msg.flags ||| CTRL_COUNT s.count })

/-- apple_a7iop_mailbox_ctrl from mailbox/core.c: when underflowed, the
status word is just the underflow bit; otherwise full, empty and the
saturated count. -/
def apple_a7iop_mailbox_ctrl (s : AppleA7IOPMailbox) : Nat :=
  if s.underflow then CTRL_UNDERFLOW 1
  else
    CTRL_FULL (if MAX_MESSAGE_COUNT ≤ s.count then 1 else 0) |||
      CTRL_EMPTY (if s.inbox.isEmpty then 1 else 0) |||
      CTRL_COUNT (min s.count MAX_MESSAGE_COUNT)

/-- apple_a7iop_mailbox_reset from mailbox/core.c: zero the count, enable
both directions, clear underflow and free every queued message. -/
def apple_a7iop_mailbox_reset (s : AppleA7IOPMailbox) : AppleA7IOPMailbox :=
  { s with count := 0, iop_dir_en := true, ap_dir_en := true,
           underflow := false, inbox := [] }

/-- The paired mailbox instances created by apple_a7iop_init in core.c:
`iop_mailbox` (whose inbox carries AP-to-IOP traffic) and `ap_mailbox`
(whose inbox carries IOP-to-AP traffic); each instance's iop_mailbox /
ap_mailbox pointers resolve to these two. -/
structure AppleA7IOP where
  iop_mailbox : AppleA7IOPMailbox
  ap_mailbox : AppleA7IOPMailbox
  deriving DecidableEq, Repr

/-- apple_a7iop_mailbox_send_ap from mailbox/core.c, instantiated at the
configuration used by apple_a7iop_send_ap in core.c (called on the
iop_mailbox instance, whose ap_mailbox pointer is the AP instance): gate
on the caller's ap_dir_en; when disabled, log a guest error and drop the
message (the Bool result is false exactly on that gating failure). -/
def apple_a7iop_mailbox_send_ap (p : AppleA7IOP) (msg : AppleA7IOPMessage) :
    AppleA7IOP × Bool :=
  if !p.iop_mailbox.ap_dir_en then (p, false)
  else
    ({ p with ap_mailbox := apple_a7iop_mailbox_send p.ap_mailbox msg }, true)

/-- apple_a7iop_mailbox_recv_iop from mailbox/core.c, instantiated at the
configuration used by apple_a7iop_recv_iop in core.c (called on the
ap_mailbox instance, whose iop_mailbox pointer is the IOP instance): gate
on the AP instance's iop_dir_en, then dequeue from the IOP instance. -/
def apple_a7iop_mailbox_recv_iop (p : AppleA7IOP) :
    AppleA7IOP × Option AppleA7IOPMessage :=
  if !p.ap_mailbox.iop_dir_en then (p, none)
  else
    let r := apple_a7iop_mailbox_recv p.iop_mailbox
    ({ p with iop_mailbox := r.1 }, r.2)

/-- Iterated apple_a7iop_mailbox_send: enqueue a whole list in order. -/
def sendAll (s : AppleA7IOPMailbox) (msgs : List AppleA7IOPMessage) :
    AppleA7IOPMailbox :=
  msgs.foldl apple_a7iop_mailbox_send s

/-! RTBuddy session layer, from rtbuddy.c and rtbuddy.h. -/

/-- EP_USER_START from rtbuddy.h. -/
def EP_USER_START : Nat := 32

/-- EP_MANAGEMENT from rtbuddy.h. -/
def EP_MANAGEMENT : Nat := 0

/-- MSG_SEND_HELLO message type. -/
def MSG_SEND_HELLO : Nat := 1

/-- MSG_RECV_HELLO message type. -/
def MSG_RECV_HELLO : Nat := 2

/-- MSG_TYPE_PING message type. -/
def MSG_TYPE_PING : Nat := 3

/-- MSG_TYPE_PING_ACK message type. -/
def MSG_TYPE_PING_ACK : Nat := 4

/-- MSG_TYPE_EPSTART message type. -/
def MSG_TYPE_EPSTART : Nat := 5

/-- MSG_TYPE_SET_IOP_PSTATE message type. -/
def MSG_TYPE_SET_IOP_PSTATE : Nat := 6

/-- MSG_TYPE_SET_AP_PSTATE_ACK message type. -/
def MSG_TYPE_SET_AP_PSTATE_ACK : Nat := 7

/-- MSG_TYPE_ROLLCALL message type. -/
def MSG_TYPE_ROLLCALL : Nat := 8

/-- MSG_TYPE_SET_AP_PSTATE message type. -/
def MSG_TYPE_SET_AP_PSTATE : Nat := 11

/-- MSG_GET_PSTATE macro from rtbuddy.c. -/
def MSG_GET_PSTATE (x : Nat) : Nat := x &&& 0xFFF

/-- PSTATE_SLPNOMEM from rtbuddy.c. -/
def PSTATE_SLPNOMEM : Nat := 0x0

/-- PSTATE_WAIT_VR from rtbuddy.c. -/
def PSTATE_WAIT_VR : Nat := 0x201

/-- PSTATE_ON from rtbuddy.c. -/
def PSTATE_ON : Nat := 0x220

/-- Type nibble of an AppleRTBuddyManagementMessage: per the packed union
in rtbuddy.h, field_0 occupies bits 0..31, field_32 bits 32..47, field_48
bits 48..51 and type bits 52..55 of the 64-bit raw value. -/
def msg_type (raw : Nat) : Nat := (raw >>> 52) &&& 0xF

/-- Raw value of a management message with the given type nibble and the
other fields zero (the C handler zero-initialises the reply and then sets
type plus specific fields). -/
def mgmt_raw (t : Nat) (low : Nat) : Nat := low ||| (t <<< 52)

/-- Raw value of a rollcall management message, per the packed bitfields in
rtbuddy.h: epMask bits 0..31, epBlock bits 32..37, unk38 bits 38..50,
epEnded bit 51, type bits 52..55. -/
def rollcall_msg_raw (mask block : Nat) (ended : Bool) : Nat :=
  (mask &&& 0xFFFFFFFF) ||| ((block &&& 0x3F) <<< 32) |||
    (ended.toNat <<< 51) ||| (MSG_TYPE_ROLLCALL <<< 52)

/-- AppleRTBuddyEP0State from rtbuddy.h. -/
inductive AppleRTBuddyEP0State where
  | EP0_IDLE
  | EP0_WAIT_HELLO
  | EP0_WAIT_ROLLCALL
  | EP0_DONE
  deriving DecidableEq, Repr

export AppleRTBuddyEP0State (EP0_IDLE EP0_WAIT_HELLO EP0_WAIT_ROLLCALL EP0_DONE)

/-- Session-layer state of struct AppleRTBuddy used by the management
handler: the handshake phase, the endpoint registry and the pending
rollcall queue.  `endpoints` lists the registered endpoint ids in
ascending order, matching the in-order traversal g_tree_foreach performs
over the id-keyed GTree. -/
structure AppleRTBuddy where
  ep0_status : AppleRTBuddyEP0State
  endpoints : List Nat
  rollcall : List AppleA7IOPMessage
  deriving DecidableEq, Repr

/-- AppleRTBuddyRollcallData from rtbuddy.h (the accumulator of the
g_tree_foreach traversal; the back pointer to the device is dropped). -/
structure AppleRTBuddyRollcallData where
  mask : Nat
  last_block : Nat
  deriving DecidableEq, Repr

/-- apple_rtbuddy_construct_msg from rtbuddy.c: a zero-initialised message
with the endpoint and payload filled in. -/
def apple_rtbuddy_construct_msg (ep : Nat) (data : Nat) : AppleA7IOPMessage :=
  { msg := data, endpoint := ep, flags := 0 }

/-- iop_rollcall from rtbuddy.c: one step of the g_tree_foreach traversal.
Ids below 1 are skipped.  When the id crosses into a new 32-id block and
the accumulated mask is nonzero, a non-final rollcall message for the
previous block is appended to the queue and the mask is cleared; then the
block is recorded and the id's bit is ORed into the mask. -/
def iop_rollcall (acc : List AppleA7IOPMessage × AppleRTBuddyRollcallData)
    (key : Nat) : List AppleA7IOPMessage × AppleRTBuddyRollcallData :=
  if key < 1 then acc
  else
    let ep := key
    let acc2 :=
      if ep / EP_USER_START ≠ acc.2.last_block ∧ acc.2.mask ≠ 0 then
        (acc.1 ++ [apple_rtbuddy_construct_msg EP_MANAGEMENT
            (rollcall_msg_raw acc.2.mask acc.2.last_block false)],
         { acc.2 with mask := 0 })
      else acc
    (acc2.1,
     { last_block := ep / EP_USER_START,
       mask := acc2.2.mask ||| (1 <<< (ep &&& (EP_USER_START - 1))) })

/-- The full rollcall batch generated from a registry: the fold of
iop_rollcall over the ids followed by the unconditional final message with
epEnded set (the tail of iop_start_rollcall). -/
def build_rollcall (endpoints : List Nat) :
    List AppleA7IOPMessage × AppleRTBuddyRollcallData :=
  endpoints.foldl iop_rollcall ([], { mask := 0, last_block := 0 })

/-- The complete queue iop_start_rollcall constructs before popping the
first entry: generated non-final messages plus the final epEnded one. -/
def rollcall_queue (endpoints : List Nat) : List AppleA7IOPMessage :=
  (build_rollcall endpoints).1 ++
    [apple_rtbuddy_construct_msg EP_MANAGEMENT
      (rollcall_msg_raw (build_rollcall endpoints).2.mask
        (build_rollcall endpoints).2.last_block true)]

/-- iop_start_rollcall from rtbuddy.c: free every message still pending in
the rollcall queue, enter EP0_WAIT_ROLLCALL, rebuild the queue from the
registry, then pop the first entry and send it to the AP.  The result pairs
the new session state with the list of messages sent to the AP.  The
constructed queue is never empty (the final message is unconditional), so
the headD default is never used. -/
def iop_start_rollcall (s : AppleRTBuddy) :
    AppleRTBuddy × List AppleA7IOPMessage :=
  let s1 : AppleRTBuddy :=
    { s with rollcall := [], ep0_status := EP0_WAIT_ROLLCALL }
  let queue := rollcall_queue s1.endpoints
  ({ s1 with rollcall := queue.tail },
   [queue.headD (apple_rtbuddy_construct_msg EP_MANAGEMENT 0)])

/-- apple_rtbuddy_handle_mgmt_msg from rtbuddy.c, returning the new session
state and the list of messages sent to the AP.  The
apple_a7iop_cpu_start / apple_a7iop_set_cpu_status calls in the
EP0_IDLE SetIopPstate branch act on the coprocessor execution state, not
on the session state modelled here. -/
def apple_rtbuddy_handle_mgmt_msg (s : AppleRTBuddy) (ep : Nat)
    (message : Nat) : AppleRTBuddy × List AppleA7IOPMessage :=
  let t := msg_type message
  if t = MSG_TYPE_PING then
    (s, [apple_rtbuddy_construct_msg ep
      (mgmt_raw MSG_TYPE_PING_ACK
        ((message &&& 0xFFFFFFFF) ||| (message &&& 0xFFFF00000000)))])
  else if t = MSG_TYPE_SET_AP_PSTATE then
    (s, [apple_rtbuddy_construct_msg ep
      (mgmt_raw MSG_TYPE_SET_AP_PSTATE (message &&& 0xFFFFFFFF))])
  else
    match s.ep0_status with
    | EP0_IDLE =>
      if t = MSG_TYPE_SET_IOP_PSTATE then
        if MSG_GET_PSTATE message = PSTATE_WAIT_VR ∨
            MSG_GET_PSTATE message = PSTATE_ON then
          (s, [])
        else if MSG_GET_PSTATE message = PSTATE_SLPNOMEM then
          (s, [apple_rtbuddy_construct_msg ep
            (mgmt_raw MSG_TYPE_SET_AP_PSTATE_ACK (MSG_GET_PSTATE message))])
        else (s, [])
      else (s, [])
    | EP0_WAIT_HELLO =>
      if t = MSG_RECV_HELLO then iop_start_rollcall s else (s, [])
    | EP0_WAIT_ROLLCALL =>
      if t = MSG_TYPE_ROLLCALL then
        match s.rollcall with
        | [] =>
          ({ s with ep0_status := EP0_IDLE },
           [apple_rtbuddy_construct_msg ep
             (mgmt_raw MSG_TYPE_SET_AP_PSTATE_ACK 32)])
        | m :: rest => ({ s with rollcall := rest }, [m])
      else (s, [])
    | EP0_DONE => (s, [])

/-! Field extractors for the status word, and the spec's versions of the
status word and interrupt-line derivation, kept for comparison with the
code's versions. -/

/-- Value of the CTRL full bit (bit 16) of a status word. -/
def ctrl_full_bit (v : Nat) : Nat := (v >>> 16) &&& 1

/-- Value of the CTRL empty bit (bit 17) of a status word. -/
def ctrl_empty_bit (v : Nat) : Nat := (v >>> 17) &&& 1

/-- Value of the CTRL underflow bit (bit 19) of a status word. -/
def ctrl_underflow_bit (v : Nat) : Nat := (v >>> 19) &&& 1

/-- Value of the CTRL count field (bits 20..23) of a status word. -/
def ctrl_count_field (v : Nat) : Nat := (v >>> 20) &&& 15

/-- Interrupt-line derivation written from the spec sentence, for
comparison with apple_a7iop_mailbox_update_irq: nonempty(X) =
(not masked) and (not empty(X) or underflow(X)); empty(X) =
(not masked) and empty(X). -/
def spec_irq_lines (int_mask : Nat) (iopMb apMb : AppleA7IOPMailbox) :
    AppleA7IOPIrqLines :=
  { iop_nonempty :=
      iop_nonempty_is_unmasked int_mask &&
        (!iopMb.inbox.isEmpty || iopMb.underflow),
    iop_empty := iop_empty_is_unmasked int_mask && iopMb.inbox.isEmpty,
    ap_nonempty :=
      ap_nonempty_is_unmasked int_mask &&
        (!apMb.inbox.isEmpty || apMb.underflow),
    ap_empty := ap_empty_is_unmasked int_mask && apMb.inbox.isEmpty }

/-! Concrete states used by counterexamples and witnesses. -/

/-- A sample message. -/
def msg570 : AppleA7IOPMessage := { msg := 5, endpoint := 7, flags := 0 }

/-- The all-zero message. -/
def msg0 : AppleA7IOPMessage := { msg := 0, endpoint := 0, flags := 0 }

/-- An idle mailbox: empty inbox, both directions enabled, no underflow. -/
def mb0 : AppleA7IOPMailbox :=
  { inbox := [], count := 0, iop_dir_en := true, ap_dir_en := true,
    underflow := false, int_mask := 0 }

/-- An underflowed empty mailbox. -/
def mbUf : AppleA7IOPMailbox :=
  { inbox := [], count := 0, iop_dir_en := true, ap_dir_en := true,
    underflow := true, int_mask := 0 }

/-- A mailbox holding one message. -/
def mbOne : AppleA7IOPMailbox :=
  { inbox := [msg570], count := 1, iop_dir_en := true, ap_dir_en := true,
    underflow := false, int_mask := 0 }

/-- A mailbox holding sixteen identical messages, so its count exceeds the
reported depth limit of fifteen. -/
def mb16 : AppleA7IOPMailbox :=
  { inbox := List.replicate 16 msg0, count := 16, iop_dir_en := true,
    ap_dir_en := true, underflow := false, int_mask := 0 }

/-- A mailbox whose AP direction is disabled. -/
def mbGate : AppleA7IOPMailbox := { mb0 with ap_dir_en := false }

/-- An idle RTBuddy session with the two always-present control endpoints. -/
def rtbIdle : AppleRTBuddy :=
  { ep0_status := EP0_IDLE, endpoints := [0, 1], rollcall := [] }

/-- The session of the rollcall-partitioning scenario: phase
EP0_WAIT_HELLO with registered endpoint ids 0, 1 and 32. -/
def rtbC1 : AppleRTBuddy :=
  { ep0_status := EP0_WAIT_HELLO, endpoints := [0, 1, 32], rollcall := [] }

/-- A SetApPstate management message carrying a nonzero bit outside the
power-state field and the type nibble (bit 32, inside field_32). -/
def setApPstateStray : Nat := (MSG_TYPE_SET_AP_PSTATE <<< 52) ||| (1 <<< 32)

/-! Helper lemmas. -/

/-- CTRL_COUNT masks its argument to the low four bits: the field value is
the count modulo 16, not the count saturated at 15. -/
theorem CTRL_COUNT_eq_mod (v : Nat) : CTRL_COUNT v = (v % 16) <<< 20 := by
  apply Nat.eq_of_testBit_eq
  intro i
  have h15 : MAX_MESSAGE_COUNT = 2 ^ 4 - 1 := by decide
  have h16 : (16 : Nat) = 2 ^ 4 := by norm_num
  rw [CTRL_COUNT, h15, h16]
  simp only [Nat.testBit_and, Nat.testBit_shiftLeft,
    Nat.testBit_two_pow_sub_one, Nat.testBit_mod_two_pow]
  by_cases h : 20 ≤ i <;>
    simp [h, Bool.and_comm, Bool.and_left_comm, Bool.and_assoc]

/-- Shifted-in high bits sit above a small value: shifting back down
recovers them. -/
theorem or_shiftLeft_shiftRight (a b n : Nat) (ha : a < 2 ^ n) :
    (a ||| (b <<< n)) >>> n = b := by
  apply Nat.eq_of_testBit_eq
  intro i
  have hlt : a < 2 ^ (n + i) :=
    Nat.lt_of_lt_of_le ha (Nat.pow_le_pow_right (by norm_num) (Nat.le_add_right n i))
  simp [Nat.testBit_shiftRight, Nat.testBit_or, Nat.testBit_shiftLeft,
    Nat.testBit_lt_two_pow hlt, Nat.le_add_right]

/-- Masking the low k bits of a low value ORed with high shifted-in bits
recovers the low value. -/
theorem or_shiftLeft_and_low (a b n k : Nat) (ha : a < 2 ^ k) (hkn : k ≤ n) :
    (a ||| (b <<< n)) &&& (2 ^ k - 1) = a := by
  apply Nat.eq_of_testBit_eq
  intro i
  simp only [Nat.testBit_and, Nat.testBit_or, Nat.testBit_shiftLeft,
    Nat.testBit_two_pow_sub_one]
  by_cases h : i < k
  · have hin : ¬ n ≤ i := by omega
    simp [h, hin]
  · have hlt : a < 2 ^ i :=
      Nat.lt_of_lt_of_le ha (Nat.pow_le_pow_right (by norm_num) (by omega))
    simp [h, Nat.testBit_lt_two_pow hlt]

/-- Enqueuing a list appends it, in order, to the inbox. -/
theorem sendAll_inbox (s : AppleA7IOPMailbox)
    (msgs : List AppleA7IOPMessage) :
    (sendAll s msgs).inbox = s.inbox ++ msgs := by
  induction msgs generalizing s with
  | nil => simp [sendAll]
  | cons m ms ih =>
    have := ih (apple_a7iop_mailbox_send s m)
    simpa [sendAll, apple_a7iop_mailbox_send] using this

/-- Enqueuing a list adds its length to the count. -/
theorem sendAll_count (s : AppleA7IOPMailbox)
    (msgs : List AppleA7IOPMessage) :
    (sendAll s msgs).count = s.count + msgs.length := by
  induction msgs generalizing s with
  | nil => simp [sendAll]
  | cons m ms ih =>
    have := ih (apple_a7iop_mailbox_send s m)
    simp [sendAll, apple_a7iop_mailbox_send] at this ⊢
    omega

/-- Enqueuing never touches the underflow flag. -/
theorem sendAll_underflow (s : AppleA7IOPMailbox)
    (msgs : List AppleA7IOPMessage) :
    (sendAll s msgs).underflow = s.underflow := by
  induction msgs generalizing s with
  | nil => simp [sendAll]
  | cons m ms ih =>
    have := ih (apple_a7iop_mailbox_send s m)
    simpa [sendAll, apple_a7iop_mailbox_send] using this

/-- Dequeue from a non-underflowed, non-empty mailbox: pop the head, stamp
its flags with CTRL_COUNT of the pre-removal count, decrement the count. -/
theorem recv_cons (s : AppleA7IOPMailbox) (m : AppleA7IOPMessage)
    (rest : List AppleA7IOPMessage) (h1 : s.underflow = false)
    (h2 : s.inbox = m :: rest) :
    apple_a7iop_mailbox_recv s =
      ({ s with inbox := rest, count := s.count - 1 },
       some { m with flags := m.flags ||| CTRL_COUNT s.count }) := by
  simp [apple_a7iop_mailbox_recv, h1, h2]

/-- C2: dequeuing from an empty, not-yet-underflowed mailbox sets
underflow and returns nothing; once underflow is set, every dequeue
returns nothing with no state change even after arbitrarily many enqueues,
which never clear the flag; reset clears underflow, zeroes the count,
re-enables both directions and empties the queue, after which FIFO dequeue
behaviour resumes. -/
theorem claim_C2_sticky_underflow (s : AppleA7IOPMailbox)
    (m : AppleA7IOPMessage) (msgs : List AppleA7IOPMessage) :
    (s.underflow = false → s.inbox = [] →
      apple_a7iop_mailbox_recv s = ({ s with underflow := true }, none)) ∧
    (s.underflow = true →
      apple_a7iop_mailbox_recv (sendAll s msgs) = (sendAll s msgs, none)) ∧
    (sendAll s msgs).underflow = s.underflow ∧
    (apple_a7iop_mailbox_reset s).underflow = false ∧
    (apple_a7iop_mailbox_reset s).count = 0 ∧
    (apple_a7iop_mailbox_reset s).iop_dir_en = true ∧
    (apple_a7iop_mailbox_reset s).ap_dir_en = true ∧
    (apple_a7iop_mailbox_reset s).inbox = [] ∧
    (apple_a7iop_mailbox_recv
        (sendAll (apple_a7iop_mailbox_reset s) (m :: msgs))).2 =
      some { m with flags := m.flags ||| CTRL_COUNT (msgs.length + 1) } ∧
    (apple_a7iop_mailbox_recv
        (sendAll (apple_a7iop_mailbox_reset s) (m :: msgs))).1.inbox = msgs ∧
    (apple_a7iop_mailbox_recv
        (sendAll (apple_a7iop_mailbox_reset s) (m :: msgs))).1.count =
      msgs.length ∧
    (apple_a7iop_mailbox_recv
        (sendAll (apple_a7iop_mailbox_reset s) (m :: msgs))).1.underflow =
      false := by
  have hset := sendAll_underflow s msgs
  have hr : (sendAll (apple_a7iop_mailbox_reset s) (m :: msgs)).underflow =
      false := by
    simp [sendAll_underflow, apple_a7iop_mailbox_reset]
  have hi : (sendAll (apple_a7iop_mailbox_reset s) (m :: msgs)).inbox =
      m :: msgs := by
    simp [sendAll_inbox, apple_a7iop_mailbox_reset]
  have hc : (sendAll (apple_a7iop_mailbox_reset s) (m :: msgs)).count =
      msgs.length + 1 := by
    simp [sendAll_count, apple_a7iop_mailbox_reset]
  have hrecv := recv_cons _ m msgs hr hi
  refine ⟨?_, ?_, hset, rfl, rfl, rfl, rfl, rfl, ?_, ?_, ?_, ?_⟩
  · intro h1 h2
    simp [apple_a7iop_mailbox_recv, h1, h2]
  · intro h1
    simp [apple_a7iop_mailbox_recv, hset, h1]
  · rw [hrecv, hc]
  · rw [hrecv]
  · rw [hrecv]
    simp [hc]
  · rw [hrecv]
    simp [hr]

/-- C2 witness: the theorem applied to a mailbox holding one message, with
every hypothesis discharged at concrete inputs. -/
theorem claim_C2_sticky_underflow_witness :
    (apple_a7iop_mailbox_recv mb0 = ({ mb0 with underflow := true }, none)) ∧
    (apple_a7iop_mailbox_recv (sendAll mbUf [msg570]) =
      (sendAll mbUf [msg570], none)) :=
  ⟨(claim_C2_sticky_underflow mb0 msg570 []).1 rfl rfl,
   (claim_C2_sticky_underflow mbUf msg570 [msg570]).2.1 rfl⟩

/-- C3 counterexample: a mailbox with sixteen queued messages and count 16
dequeues a message whose stamped count field is 16 mod 16 = 0, not
min(16, 15) = 15. -/
theorem claim_C3_stamp_counterexample :
    mb16.underflow = false ∧ mb16.inbox ≠ [] ∧ mb16.count = 16 ∧
    (apple_a7iop_mailbox_recv mb16).2.map
        (fun m => ctrl_count_field m.flags) = some 0 ∧
    min mb16.count MAX_MESSAGE_COUNT = 15 ∧ (0 : Nat) ≠ 15 := by
  decide

/-- C3 amended: dequeue from a non-underflowed, non-empty mailbox removes
the head and ORs into its flags the pre-removal count reduced modulo 16
(the low four bits of the count field), which coincides with the count
saturated at 15 only when the count is at most 15; the count is then
decremented and the message returned. -/
theorem claim_C3_recv_stamp (s : AppleA7IOPMailbox) (m : AppleA7IOPMessage)
    (rest : List AppleA7IOPMessage) (h1 : s.underflow = false)
    (h2 : s.inbox = m :: rest) :
    apple_a7iop_mailbox_recv s =
      ({ s with inbox := rest, count := s.count - 1 },
       some { m with flags := m.flags ||| ((s.count % 16) <<< 20) }) ∧
    (s.count ≤ 15 → s.count % 16 = min s.count MAX_MESSAGE_COUNT) := by
  constructor
  · rw [recv_cons s m rest h1 h2, CTRL_COUNT_eq_mod]
  · intro h
    have : s.count % 16 = s.count := Nat.mod_eq_of_lt (by omega)
    rw [this, MAX_MESSAGE_COUNT]
    omega

/-- C3 amended witness: the amended stamping applied to the
sixteen-message mailbox. -/
theorem claim_C3_recv_stamp_witness :
    apple_a7iop_mailbox_recv mb16 =
      ({ mb16 with inbox := List.replicate 15 msg0, count := 15 },
       some { msg0 with flags := (16 % 16) <<< 20 }) :=
  (claim_C3_recv_stamp mb16 msg0 (List.replicate 15 msg0) rfl
    (by decide)).1

/-- C6: while the mailbox is consistent (count equals queue length), every
operation preserves consistency; once underflow is set it survives both
enqueue and dequeue, and only reset clears it. -/
theorem claim_C6_count_invariant (s : AppleA7IOPMailbox)
    (m : AppleA7IOPMessage) :
    (s.count = s.inbox.length →
      ((apple_a7iop_mailbox_send s m).count =
          (apple_a7iop_mailbox_send s m).inbox.length ∧
       (apple_a7iop_mailbox_recv s).1.count =
          (apple_a7iop_mailbox_recv s).1.inbox.length ∧
       (apple_a7iop_mailbox_reset s).count =
          (apple_a7iop_mailbox_reset s).inbox.length)) ∧
    (s.underflow = true →
      (apple_a7iop_mailbox_send s m).underflow = true ∧
      (apple_a7iop_mailbox_recv s).1.underflow = true) ∧
    (apple_a7iop_mailbox_reset s).underflow = false := by
  refine ⟨?_, ?_, rfl⟩
  · intro h
    refine ⟨by simp [apple_a7iop_mailbox_send, h], ?_,
      by simp [apple_a7iop_mailbox_reset]⟩
    by_cases hu : s.underflow
    · simp [apple_a7iop_mailbox_recv, hu, h]
    · cases hib : s.inbox with
      | nil => simp [apple_a7iop_mailbox_recv, hu, hib, h, hib ▸ h]
      | cons a as =>
        rw [recv_cons s a as (by simpa using hu) hib]
        simp only []
        rw [h, hib]
        simp
  · intro hu
    constructor
    · simp [apple_a7iop_mailbox_send, hu]
    · simp [apple_a7iop_mailbox_recv, hu]

/-- C6 witness: consistency preservation and underflow stickiness at
concrete mailboxes. -/
theorem claim_C6_count_invariant_witness :
    ((apple_a7iop_mailbox_send mbOne msg570).count =
       (apple_a7iop_mailbox_send mbOne msg570).inbox.length) ∧
    ((apple_a7iop_mailbox_recv mbUf).1.underflow = true) :=
  ⟨((claim_C6_count_invariant mbOne msg570).1 rfl).1,
   ((claim_C6_count_invariant mbUf msg570).2.1 rfl).2⟩

/-- Field extraction of a well-formed non-underflow status word: with the
full and empty fields at most one and the count field at most fifteen, each
extractor reads back the field that was ORed in, and the underflow bit is
clear. -/
theorem ctrl_word_fields (f e c : Nat) (hf : f ≤ 1) (he : e ≤ 1)
    (hc : c ≤ 15) :
    ctrl_full_bit (CTRL_FULL f ||| CTRL_EMPTY e ||| CTRL_COUNT c) = f ∧
    ctrl_empty_bit (CTRL_FULL f ||| CTRL_EMPTY e ||| CTRL_COUNT c) = e ∧
    ctrl_underflow_bit (CTRL_FULL f ||| CTRL_EMPTY e ||| CTRL_COUNT c) = 0 ∧
    ctrl_count_field (CTRL_FULL f ||| CTRL_EMPTY e ||| CTRL_COUNT c) = c := by
  interval_cases f <;> interval_cases e <;> interval_cases c <;> decide

/-- C4 counterexample: in an underflowed empty mailbox the status word is
only the underflow bit, so its empty field reads zero even though the
queue length is zero: the word does not simultaneously report all four
fields. -/
theorem claim_C4_ctrl_counterexample :
    mbUf.underflow = true ∧ mbUf.inbox.isEmpty = true ∧
    ctrl_empty_bit (apple_a7iop_mailbox_ctrl mbUf) = 0 := by
  decide

/-- C4 amended: while underflow is unset the status word reports
full = (count at least 15), empty = (queue empty) and
count = min(count, 15) with the underflow bit clear; when underflow is set
the word is exactly the underflow bit and the other three fields read
zero. -/
theorem claim_C4_ctrl_fields (s : AppleA7IOPMailbox) :
    ctrl_full_bit (apple_a7iop_mailbox_ctrl s) =
      (if s.underflow = false ∧ 15 ≤ s.count then 1 else 0) ∧
    ctrl_empty_bit (apple_a7iop_mailbox_ctrl s) =
      (if s.underflow = false ∧ s.inbox = [] then 1 else 0) ∧
    ctrl_underflow_bit (apple_a7iop_mailbox_ctrl s) = s.underflow.toNat ∧
    ctrl_count_field (apple_a7iop_mailbox_ctrl s) =
      (if s.underflow = true then 0 else min s.count 15) := by
  cases hu : s.underflow
  · have h := ctrl_word_fields (if MAX_MESSAGE_COUNT ≤ s.count then 1 else 0)
      (if s.inbox.isEmpty then 1 else 0) (min s.count MAX_MESSAGE_COUNT)
      (by split <;> norm_num) (by split <;> norm_num)
      (by rw [MAX_MESSAGE_COUNT]; omega)
    rw [apple_a7iop_mailbox_ctrl, if_neg (by simp [hu])]
    refine ⟨?_, ?_, ?_, ?_⟩
    · rw [h.1]
      simp [hu, MAX_MESSAGE_COUNT]
    · rw [h.2.1]
      simp [hu, List.isEmpty_iff]
    · rw [h.2.2.1]
      rfl
    · rw [h.2.2.2]
      simp [hu, MAX_MESSAGE_COUNT]
  · rw [apple_a7iop_mailbox_ctrl, if_pos (by simp [hu])]
    refine ⟨by simp; decide, by simp; decide, by decide, by simp; decide⟩

/-- C5 counterexample: with the IOP nonempty condition masked and the IOP
mailbox underflowed, the code asserts the IOP nonempty line while the spec
formula, which puts the underflow contribution under the mask, deasserts
it. -/
theorem claim_C5_irq_counterexample :
    iop_nonempty_is_unmasked IOP_NONEMPTY = false ∧ mbUf.underflow = true ∧
    (apple_a7iop_mailbox_update_irq IOP_NONEMPTY mbUf mb0).iop_nonempty =
      true ∧
    (spec_irq_lines IOP_NONEMPTY mbUf mb0).iop_nonempty = false := by
  decide

/-- C5 amended: after every recomputation, each empty line is
(not masked) and empty(X) as specified, but each nonempty line is
((not masked) and not empty(X)) or underflow(X): the underflow error
signal asserts the nonempty line even when that condition is masked. -/
theorem claim_C5_irq_lines (int_mask : Nat)
    (iopMb apMb : AppleA7IOPMailbox) :
    ((apple_a7iop_mailbox_update_irq int_mask iopMb apMb).iop_nonempty =
        true ↔
      ((int_mask &&& IOP_NONEMPTY = 0 ∧ iopMb.inbox ≠ []) ∨
        iopMb.underflow = true)) ∧
    ((apple_a7iop_mailbox_update_irq int_mask iopMb apMb).iop_empty = true ↔
      (int_mask &&& IOP_EMPTY = 0 ∧ iopMb.inbox = [])) ∧
    ((apple_a7iop_mailbox_update_irq int_mask iopMb apMb).ap_nonempty =
        true ↔
      ((int_mask &&& AP_NONEMPTY = 0 ∧ apMb.inbox ≠ []) ∨
        apMb.underflow = true)) ∧
    ((apple_a7iop_mailbox_update_irq int_mask iopMb apMb).ap_empty = true ↔
      (int_mask &&& AP_EMPTY = 0 ∧ apMb.inbox = [])) := by
  simp only [apple_a7iop_mailbox_update_irq, iop_nonempty_is_unmasked,
    iop_empty_is_unmasked, ap_nonempty_is_unmasked, ap_empty_is_unmasked,
    Bool.or_eq_true, Bool.and_eq_true, Bool.not_eq_true',
    List.isEmpty_eq_false, List.isEmpty_iff, beq_iff_eq]
  tauto

/-- C7: a send toward the AP with the AP direction disabled changes
nothing: the pair state is returned unmodified, so the AP mailbox's queue,
count and underflow flag and every derived interrupt line are unchanged,
and the call reports the gating failure. -/
theorem claim_C7_send_ap_gated (p : AppleA7IOP) (m : AppleA7IOPMessage)
    (h : p.iop_mailbox.ap_dir_en = false) :
    apple_a7iop_mailbox_send_ap p m = (p, false) ∧
    (apple_a7iop_mailbox_send_ap p m).1.ap_mailbox.inbox =
      p.ap_mailbox.inbox ∧
    (apple_a7iop_mailbox_send_ap p m).1.ap_mailbox.count =
      p.ap_mailbox.count ∧
    (apple_a7iop_mailbox_send_ap p m).1.ap_mailbox.underflow =
      p.ap_mailbox.underflow ∧
    (∀ int_mask, apple_a7iop_mailbox_update_irq int_mask
        (apple_a7iop_mailbox_send_ap p m).1.iop_mailbox
        (apple_a7iop_mailbox_send_ap p m).1.ap_mailbox =
      apple_a7iop_mailbox_update_irq int_mask p.iop_mailbox p.ap_mailbox) ∧
    (apple_a7iop_mailbox_send_ap p m).2 = false := by
  have he : apple_a7iop_mailbox_send_ap p m = (p, false) := by
    simp [apple_a7iop_mailbox_send_ap, h]
  exact ⟨he, by rw [he], by rw [he], by rw [he], fun mask => by rw [he],
    by rw [he]⟩

/-- C7 witness: the gated send applied to a concrete pair whose caller
side has ap_dir_en disabled. -/
theorem claim_C7_send_ap_gated_witness :
    apple_a7iop_mailbox_send_ap
        { iop_mailbox := mbGate, ap_mailbox := mbOne } msg570 =
      ({ iop_mailbox := mbGate, ap_mailbox := mbOne }, false) :=
  (claim_C7_send_ap_gated { iop_mailbox := mbGate, ap_mailbox := mbOne }
    msg570 (by decide)).1

/-- C9: when the deferred-dispatch loop has just observed a non-empty,
non-underflowed inbound IOP mailbox, the subsequent dequeue returns a
message exactly when the gating flag iop_dir_en consulted by the dequeue
path is true, so the nothing-available branch is unreachable under that
precondition and only under it. -/
theorem claim_C9_bh_dequeue_safe (p : AppleA7IOP)
    (h : apple_a7iop_mailbox_is_empty p.iop_mailbox = false) :
    ((apple_a7iop_mailbox_recv_iop p).2 ≠ none ↔
      p.ap_mailbox.iop_dir_en = true) := by
  rw [apple_a7iop_mailbox_is_empty, Bool.or_eq_false_iff] at h
  obtain ⟨h1, h2⟩ := h
  cases hg : p.ap_mailbox.iop_dir_en
  · simp [apple_a7iop_mailbox_recv_iop, hg]
  · obtain ⟨a, as, hm⟩ : ∃ a as, p.iop_mailbox.inbox = a :: as := by
      cases hx : p.iop_mailbox.inbox with
      | nil => rw [hx] at h2; simp at h2
      | cons a as => exact ⟨a, as, rfl⟩
    simp [apple_a7iop_mailbox_recv_iop, hg,
      recv_cons p.iop_mailbox a as h1 hm]

/-- C9 witness: with the gate enabled and one queued message, the dequeue
returns a message. -/
theorem claim_C9_bh_dequeue_safe_witness :
    (apple_a7iop_mailbox_recv_iop
      { iop_mailbox := mbOne, ap_mailbox := mb0 }).2 ≠ none :=
  (claim_C9_bh_dequeue_safe { iop_mailbox := mbOne, ap_mailbox := mb0 }
    (by decide)).mpr (by decide)

/-- C1: from EP0_WAIT_HELLO with registered endpoint ids 0, 1 and 32,
RecvHello builds the two-entry rollcall queue
mask 0x2 / block 0 / not ended then mask 0x1 / block 1 / ended (id 0
skipped, block = id / 32, bit = id mod 32), sends the first entry
immediately on entering EP0_WAIT_ROLLCALL, and the handshake completes
only after exactly two Rollcall acknowledgements: the first pops and sends
the second entry, the second (queue empty) sends SetApPstateAck with
state 32 and moves the phase to EP0_IDLE. -/
theorem claim_C1_rollcall_scenario :
    rollcall_queue rtbC1.endpoints =
      [apple_rtbuddy_construct_msg EP_MANAGEMENT
        (rollcall_msg_raw 0x2 0 false),
       apple_rtbuddy_construct_msg EP_MANAGEMENT
        (rollcall_msg_raw 0x1 1 true)] ∧
    (apple_rtbuddy_handle_mgmt_msg rtbC1 EP_MANAGEMENT
        (mgmt_raw MSG_RECV_HELLO 0)).1.ep0_status = EP0_WAIT_ROLLCALL ∧
    (apple_rtbuddy_handle_mgmt_msg rtbC1 EP_MANAGEMENT
        (mgmt_raw MSG_RECV_HELLO 0)).2 =
      [apple_rtbuddy_construct_msg EP_MANAGEMENT
        (rollcall_msg_raw 0x2 0 false)] ∧
    (apple_rtbuddy_handle_mgmt_msg rtbC1 EP_MANAGEMENT
        (mgmt_raw MSG_RECV_HELLO 0)).1.rollcall =
      [apple_rtbuddy_construct_msg EP_MANAGEMENT
        (rollcall_msg_raw 0x1 1 true)] ∧
    (apple_rtbuddy_handle_mgmt_msg
        (apple_rtbuddy_handle_mgmt_msg rtbC1 EP_MANAGEMENT
          (mgmt_raw MSG_RECV_HELLO 0)).1 EP_MANAGEMENT
        (mgmt_raw MSG_TYPE_ROLLCALL 0)).1.ep0_status = EP0_WAIT_ROLLCALL ∧
    (apple_rtbuddy_handle_mgmt_msg
        (apple_rtbuddy_handle_mgmt_msg rtbC1 EP_MANAGEMENT
          (mgmt_raw MSG_RECV_HELLO 0)).1 EP_MANAGEMENT
        (mgmt_raw MSG_TYPE_ROLLCALL 0)).2 =
      [apple_rtbuddy_construct_msg EP_MANAGEMENT
        (rollcall_msg_raw 0x1 1 true)] ∧
    (apple_rtbuddy_handle_mgmt_msg
        (apple_rtbuddy_handle_mgmt_msg rtbC1 EP_MANAGEMENT
          (mgmt_raw MSG_RECV_HELLO 0)).1 EP_MANAGEMENT
        (mgmt_raw MSG_TYPE_ROLLCALL 0)).1.rollcall = [] ∧
    (apple_rtbuddy_handle_mgmt_msg
        (apple_rtbuddy_handle_mgmt_msg
          (apple_rtbuddy_handle_mgmt_msg rtbC1 EP_MANAGEMENT
            (mgmt_raw MSG_RECV_HELLO 0)).1 EP_MANAGEMENT
          (mgmt_raw MSG_TYPE_ROLLCALL 0)).1 EP_MANAGEMENT
        (mgmt_raw MSG_TYPE_ROLLCALL 0)).1.ep0_status = EP0_IDLE ∧
    (apple_rtbuddy_handle_mgmt_msg
        (apple_rtbuddy_handle_mgmt_msg
          (apple_rtbuddy_handle_mgmt_msg rtbC1 EP_MANAGEMENT
            (mgmt_raw MSG_RECV_HELLO 0)).1 EP_MANAGEMENT
          (mgmt_raw MSG_TYPE_ROLLCALL 0)).1 EP_MANAGEMENT
        (mgmt_raw MSG_TYPE_ROLLCALL 0)).2 =
      [apple_rtbuddy_construct_msg EP_MANAGEMENT
        (mgmt_raw MSG_TYPE_SET_AP_PSTATE_ACK 32)] := by
  decide

/-- C8 counterexample: a SetApPstate message with a stray bit 32 set is
acknowledged with that bit cleared, so the echo is not the identical
64-bit value. -/
theorem claim_C8_echo_counterexample :
    msg_type setApPstateStray = MSG_TYPE_SET_AP_PSTATE ∧
    (apple_rtbuddy_handle_mgmt_msg rtbIdle EP_MANAGEMENT
        setApPstateStray).2 =
      [apple_rtbuddy_construct_msg EP_MANAGEMENT
        (mgmt_raw MSG_TYPE_SET_AP_PSTATE 0)] ∧
    mgmt_raw MSG_TYPE_SET_AP_PSTATE 0 ≠ setApPstateStray := by
  decide

/-- C8 amended: in every session phase, a SetApPstate message is answered
immediately with a message carrying the same 32-bit power-state field and
the SetApPstate type nibble, with every other bit cleared, and the session
state is unchanged; the echo is bit-identical exactly for incoming values
whose only set bits lie in the power-state field and the type nibble. -/
theorem claim_C8_set_ap_pstate_echo (s : AppleRTBuddy) (ep : Nat)
    (message state32 : Nat) (h : msg_type message = MSG_TYPE_SET_AP_PSTATE)
    (hs : state32 < 2 ^ 32) :
    apple_rtbuddy_handle_mgmt_msg s ep message =
      (s, [apple_rtbuddy_construct_msg ep
        (mgmt_raw MSG_TYPE_SET_AP_PSTATE (message &&& 0xFFFFFFFF))]) ∧
    apple_rtbuddy_handle_mgmt_msg s ep
        (state32 ||| (MSG_TYPE_SET_AP_PSTATE <<< 52)) =
      (s, [apple_rtbuddy_construct_msg ep
        (state32 ||| (MSG_TYPE_SET_AP_PSTATE <<< 52))]) := by
  have hs52 : state32 < 2 ^ 52 :=
    Nat.lt_of_lt_of_le hs (Nat.pow_le_pow_right (by norm_num) (by norm_num))
  have htype : msg_type (state32 ||| (MSG_TYPE_SET_AP_PSTATE <<< 52)) =
      MSG_TYPE_SET_AP_PSTATE := by
    rw [msg_type, or_shiftLeft_shiftRight state32 MSG_TYPE_SET_AP_PSTATE 52
      hs52]
    decide
  have hlow : (state32 ||| (MSG_TYPE_SET_AP_PSTATE <<< 52)) &&&
      0xFFFFFFFF = state32 := by
    have h32 : (0xFFFFFFFF : Nat) = 2 ^ 32 - 1 := by norm_num
    rw [h32, or_shiftLeft_and_low state32 MSG_TYPE_SET_AP_PSTATE 52 32 hs
      (by norm_num)]
  constructor
  · rw [apple_rtbuddy_handle_mgmt_msg]
    rw [h]
    simp [MSG_TYPE_PING, MSG_TYPE_SET_AP_PSTATE]
  · rw [apple_rtbuddy_handle_mgmt_msg]
    rw [htype]
    simp only [MSG_TYPE_PING, MSG_TYPE_SET_AP_PSTATE] at hlow ⊢
    rw [hlow]
    simp [mgmt_raw]

/-- C8 amended witness: the echo applied to the stray-bit message and to a
pure power-state value. -/
theorem claim_C8_set_ap_pstate_echo_witness :
    apple_rtbuddy_handle_mgmt_msg rtbIdle EP_MANAGEMENT setApPstateStray =
      (rtbIdle, [apple_rtbuddy_construct_msg EP_MANAGEMENT
        (mgmt_raw MSG_TYPE_SET_AP_PSTATE (setApPstateStray &&&
          0xFFFFFFFF))]) ∧
    apple_rtbuddy_handle_mgmt_msg rtbIdle EP_MANAGEMENT
        ((32 : Nat) ||| (MSG_TYPE_SET_AP_PSTATE <<< 52)) =
      (rtbIdle, [apple_rtbuddy_construct_msg EP_MANAGEMENT
        ((32 : Nat) ||| (MSG_TYPE_SET_AP_PSTATE <<< 52))]) :=
  ⟨(claim_C8_set_ap_pstate_echo rtbIdle EP_MANAGEMENT setApPstateStray 32
      (by decide) (by norm_num)).1,
   (claim_C8_set_ap_pstate_echo rtbIdle EP_MANAGEMENT setApPstateStray 32
      (by decide) (by norm_num)).2⟩

/-- C10: handling RecvHello in EP0_WAIT_HELLO first discards whatever is
still pending in the rollcall queue: the result is independent of the
leftover queue, and the new pending queue is exactly the batch generated
from the current endpoint registry minus its first entry, which is the one
message sent. -/
theorem claim_C10_rollcall_drained (st : AppleRTBuddy)
    (junk : List AppleA7IOPMessage) (message : Nat)
    (h1 : st.ep0_status = EP0_WAIT_HELLO)
    (h2 : msg_type message = MSG_RECV_HELLO) :
    apple_rtbuddy_handle_mgmt_msg { st with rollcall := junk }
        EP_MANAGEMENT message =
      apple_rtbuddy_handle_mgmt_msg { st with rollcall := [] }
        EP_MANAGEMENT message ∧
    (apple_rtbuddy_handle_mgmt_msg { st with rollcall := junk }
        EP_MANAGEMENT message).1.rollcall =
      (rollcall_queue st.endpoints).tail ∧
    (apple_rtbuddy_handle_mgmt_msg { st with rollcall := junk }
        EP_MANAGEMENT message).2 =
      [(rollcall_queue st.endpoints).headD
        (apple_rtbuddy_construct_msg EP_MANAGEMENT 0)] := by
  rw [apple_rtbuddy_handle_mgmt_msg, apple_rtbuddy_handle_mgmt_msg]
  rw [h2]
  simp [MSG_TYPE_PING, MSG_TYPE_SET_AP_PSTATE, MSG_RECV_HELLO, h1,
    iop_start_rollcall]

/-- C10 witness: the drain applied to a wait-hello session with a stale
message pending in its rollcall queue. -/
theorem claim_C10_rollcall_drained_witness :
    apple_rtbuddy_handle_mgmt_msg { rtbC1 with rollcall := [msg570] }
        EP_MANAGEMENT (mgmt_raw MSG_RECV_HELLO 0) =
      apple_rtbuddy_handle_mgmt_msg { rtbC1 with rollcall := [] }
        EP_MANAGEMENT (mgmt_raw MSG_RECV_HELLO 0) :=
  (claim_C10_rollcall_drained rtbC1 [msg570] (mgmt_raw MSG_RECV_HELLO 0)
    (by decide) (by decide)).1
